import Mathlib

/-!
# Verification of the trailing-stop / signal-orchestration core

Shallow embedding of the core trading logic of the repository:

* `ProfitTrailing` (src/240425/profit_trailing.py): trailing-stop state
  machine (`update_trailing_stop`, `book_profit`, `fetch_open_positions`,
  the position-refresh step of `track`).
* `fixed_stop` (src/220425/profit_trailing_rules.py).
* `SignalProcessor` (src/240425/signal_processor.py):
  `signals_are_different`, `process_signal`, one iteration of
  `process_signals_loop`.
* `compute_exit_amount` (src/220425/exit_levels.py).
* `TradeManager.place_market_order` with `force=True`
  (src/ethtest/trade_manager.py, the reduce-only augmentation path).

Modelling conventions:
* Python floats are modelled as exact rationals `ℚ`; the claims under
  scrutiny are about control flow and algebra, not rounding.
* A Python value stored in a signal/position field is modelled by `PyVal`:
  `None`, a number, or a string together with the result Python's
  `float()` would give on it (`none` when `float()` raises).
* Python dictionaries `position_trailing_stop` / `position_max_profit`
  are modelled as maps `Key → Option ℚ`.
* Text is modelled as `List Char`; `str.lower()` / `str.strip()` are
  modelled for the ASCII range, which covers every keyword the code
  matches on (`"take profit"`, `"tp"`, `"buy"`, `"sell"`, `"short"`,
  `"long"`).
-/

/-- A Python value as it appears in a signal or position field:
`pynone` is Python `None` (also used for an absent key fetched with
`.get(k)`), `num q` a numeric value, `str s v` a string `s` whose
`float()` conversion yields `v` (`none` when `float()` raises). -/
inductive PyVal where
  | pynone : PyVal
  | num (q : ℚ) : PyVal
  | str (s : List Char) (v : Option ℚ) : PyVal
deriving DecidableEq

/-- Python truthiness: `None` and `0` and `""` are falsy. -/
def PyVal.truthy : PyVal → Bool
  | .pynone => false
  | .num q => q ≠ 0
  | .str s _ => s ≠ []

/-- Python `a or b`. -/
def PyVal.orElse (a b : PyVal) : PyVal := if a.truthy then a else b

/-- Python `float(v)`: `some q` on success, `none` when it raises
(`float(None)`, `float("")`, unparseable strings). -/
def PyVal.toFloat : PyVal → Option ℚ
  | .pynone => none
  | .num q => some q
  | .str _ v => v

/-- ASCII `str.lower()` on a single character. -/
def lowChar (c : Char) : Char :=
  if 'A' ≤ c ∧ c ≤ 'Z' then Char.ofNat (c.toNat + 32) else c

/-- `str.lower()` (ASCII range). -/
def pyLower (s : List Char) : List Char := s.map lowChar

/-- ASCII whitespace, for `str.strip()`. -/
def isSpaceChar (c : Char) : Bool := c = ' ' || c = '\t' || c = '\n' || c = '\r'

/-- `str.strip()` (ASCII whitespace). -/
def pyStrip (s : List Char) : List Char :=
  ((s.dropWhile isSpaceChar).reverse.dropWhile isSpaceChar).reverse

/-- Python `pat in l` for strings: substring containment. -/
def containsSub (l pat : List Char) : Bool :=
  pat.isPrefixOf l ||
    (match l with
     | [] => false
     | _ :: t => containsSub t pat)

/-- An exchange position as the code reads it: each field is the raw
value found in the position dict. `info_product_symbol` is
`pos.get('info', {}).get('product_symbol')` (so `pynone` when absent);
`symbol` is the raw `'symbol'` entry, `none` when the key is absent
(the code supplies different defaults at different call sites). -/
structure Position where
  info_product_symbol : PyVal
  symbol : Option PyVal
  info_entry_price : PyVal
  entryPrice : PyVal
  size : PyVal
  contracts : PyVal
deriving DecidableEq

/-- `pos.get('info', {}).get('entry_price') or pos.get('entryPrice')`. -/
def Position.entryVal (p : Position) : PyVal :=
  p.info_entry_price.orElse p.entryPrice

/-- `pos.get('size') or pos.get('contracts')`. -/
def Position.sizeVal (p : Position) : PyVal :=
  p.size.orElse p.contracts

/-- The dictionary key `f"{pos_symbol}_{entry_val}_{size_val}"` of
`update_trailing_stop` / `book_profit`, modelled as the triple of the
interpolated values (string interpolation of distinct values yields
distinct text, and only key equality matters to the code). -/
def Position.key (p : Position) : PyVal × PyVal × PyVal :=
  (p.info_product_symbol.orElse (p.symbol.getD (PyVal.str "unknown".data none)),
   p.entryVal, p.sizeVal)

/-- Configuration constants read from `config` by the embedded code. -/
structure Config where
  SYMBOL : List Char
  FIXED_STOP_OFFSET_PERCENT : ℚ
  ORDER_ENTRY_OFFSET_PERCENT : ℚ
  ORDER_SL_OFFSET_PERCENT : ℚ
  QUANTITY : ℚ

/-- The mutable state of a `ProfitTrailing` instance that the trailing
logic reads and writes (src/240425/profit_trailing.py `__init__`).
`last_display` is omitted: it only gates logging. -/
structure PTState where
  position_trailing_stop : PyVal × PyVal × PyVal → Option ℚ
  position_max_profit : PyVal × PyVal × PyVal → Option ℚ
  take_profit_detected : Bool
  target_long : Option ℚ
  target_short : Option ℚ
  cached_positions : List Position
  last_had_positions : Bool

/-- Point update of a key-indexed map. -/
def mapSet (m : PyVal × PyVal × PyVal → Option ℚ) (k : PyVal × PyVal × PyVal)
    (v : ℚ) : PyVal × PyVal × PyVal → Option ℚ :=
  fun k' => if k' = k then some v else m k'

/-- `fixed_stop` from src/220425/profit_trailing_rules.py: fall back to a
fixed-offset stop below (long) or above (short) the entry. -/
def fixed_stop (cfg : Config) (entry size : ℚ) : ℚ × String :=
  let offset := entry * (cfg.FIXED_STOP_OFFSET_PERCENT / 100)
  (if size > 0 then entry - offset else entry + offset, "fixed_stop")

/-- `self.target_long is not None and live_price >= self.target_long`. -/
def hitLong (tl : Option ℚ) (live_price : ℚ) : Bool :=
  match tl with
  | none => false
  | some t => live_price ≥ t

/-- `self.target_short is not None and live_price <= self.target_short`. -/
def hitShort (ts : Option ℚ) (live_price : ℚ) : Bool :=
  match ts with
  | none => false
  | some t => live_price ≤ t

/-- The body of `ProfitTrailing.update_trailing_stop` after the
`entry`/`size` conversions succeeded (src/240425/profit_trailing.py
lines 116-139): update `position_max_profit[key]` to the running
maximum, choose the trailing rule (breakeven / lock_90 / fixed_stop, in
that priority), store the new stop in `position_trailing_stop[key]` and
return `(trailing_stop, profit_pct, rule)`. -/
def update_core (cfg : Config) (s : PTState) (p : Position)
    (live_price entry size : ℚ) :
    PTState × (Option ℚ × Option ℚ × Option String) :=
  let key := p.key
  let current_profit := if size > 0 then live_price - entry else entry - live_price
  let prev_max := (s.position_max_profit key).getD 0
  let new_max := max prev_max current_profit
  let chosen : ℚ × String :=
    if s.take_profit_detected then
      (entry, "breakeven")
    else if decide (size > 0) && hitLong s.target_long live_price then
      (entry + (9 / 10) * new_max, "lock_90")
    else if decide (size < 0) && hitShort s.target_short live_price then
      (entry - (9 / 10) * new_max, "lock_90")
    else
      fixed_stop cfg entry size
  let s' : PTState :=
    { s with
      position_max_profit := mapSet s.position_max_profit key new_max,
      position_trailing_stop := mapSet s.position_trailing_stop key chosen.1 }
  let pct : Option ℚ := if entry ≠ 0 then some (new_max / entry) else none
  (s', (some chosen.1, pct, some chosen.2))

/-- `ProfitTrailing.update_trailing_stop` (src/240425/profit_trailing.py
lines 93-139): when the `float(entry_val)` / `float(size_val or 0)`
conversions raise, return `(None, None, None)` with the state untouched;
otherwise run `update_core`. -/
def update_trailing_stop (cfg : Config) (s : PTState) (p : Position)
    (live_price : ℚ) : PTState × (Option ℚ × Option ℚ × Option String) :=
  match p.entryVal.toFloat, (p.sizeVal.orElse (PyVal.num 0)).toFloat with
  | some entry, some size => update_core cfg s p live_price entry size
  | _, _ => (s, (none, none, none))

/-- An order request as handed to the exchange by
`create_order(symbol, type, side, amount, price, params)`;
`time_in_force` and `reduce_only` record the `params` entries. -/
structure OrderReq where
  symbol : List Char
  otype : String
  side : String
  amount : ℚ
  price : Option ℚ
  time_in_force : Option String
  reduce_only : Bool
deriving DecidableEq

/-- `TradeManager.place_market_order(symbol, side, amount,
params={"time_in_force": "ioc"}, force=True)`
(src/ethtest/trade_manager.py lines 87-146): with `force=True` the
safety checks are skipped and `params.setdefault("reduce_only", True)`
adds the reduce-only flag (the caller's params never contain it), then
`create_order(symbol, "market", side, amount, None, params)` is issued. -/
def place_market_order_forced (cfg : Config) (side : String) (amount : ℚ) : OrderReq :=
  { symbol := cfg.SYMBOL, otype := "market", side := side, amount := amount,
    price := none, time_in_force := some "ioc", reduce_only := true }

/-- `OrderManager.place_order(SYMBOL, side, QUANTITY, entry_price,
params={"time_in_force": "gtc"})` as an order request. -/
def place_limit_order (cfg : Config) (side : String) (amount price : ℚ) : OrderReq :=
  { symbol := cfg.SYMBOL, otype := "limit", side := side, amount := amount,
    price := some price, time_in_force := some "gtc", reduce_only := false }

/-- `ProfitTrailing.book_profit` (src/240425/profit_trailing.py lines
141-176): recompute the trailing stop via `update_trailing_stop`; if the
live price has crossed it in the adverse direction, close the position
with a forced reduce-only ioc market order for `abs(size)` on the
opposite side.  Returns the updated state, the boolean result, and the
order request submitted (none when no close was triggered).  The model
treats the exchange call as succeeding; on an exchange error the code
would log and return `False` after submitting the same request. -/
def book_profit (cfg : Config) (s : PTState) (p : Position) (live_price : ℚ) :
    PTState × Bool × Option OrderReq :=
  match (p.sizeVal.orElse (PyVal.num 0)).toFloat with
  | none => (s, false, none)
  | some size =>
    let res := update_trailing_stop cfg s p live_price
    match res.2.1 with
    | none => (res.1, false, none)
    | some trailing_stop =>
      let should_close := if size > 0 then live_price < trailing_stop else live_price > trailing_stop
      if should_close then
        let side := if size > 0 then "sell" else "buy"
        (res.1, true, some (place_market_order_forced cfg side |size|))
      else
        (res.1, false, none)

/-- The filtering loop inside `ProfitTrailing.fetch_open_positions`
(src/240425/profit_trailing.py lines 52-69): keep positions with nonzero
parsed size whose symbol contains `config.SYMBOL`.  Returns `none` when
the loop raises (the membership test `config.SYMBOL in symbol` raises
`TypeError` on a non-string symbol value), which the enclosing `except`
turns into an empty result. -/
def filterOpenPositions (cfg : Config) : List Position → Option (List Position)
  | [] => some []
  | p :: rest =>
    let size := ((p.sizeVal.orElse (PyVal.num 0)).toFloat).getD 0
    if size = 0 then filterOpenPositions cfg rest
    else
      match p.info_product_symbol.orElse (p.symbol.getD (PyVal.str [] none)) with
      | PyVal.str sym _ =>
        (filterOpenPositions cfg rest).map
          (fun l => if containsSub sym cfg.SYMBOL then p :: l else l)
      | _ => none

/-- `ProfitTrailing.fetch_open_positions`: on any exception (including a
failing exchange `fetch_positions`, given as `Except.error`) the method
logs and returns the empty list. -/
def fetch_open_positions (cfg : Config) (fetched : Except Unit (List Position)) :
    List Position :=
  match fetched with
  | .error _ => []
  | .ok ps => (filterOpenPositions cfg ps).getD []

/-- The position-refresh step of `ProfitTrailing.track`
(src/240425/profit_trailing.py lines 193-205), run whenever the cached
snapshot is older than `position_fetch_interval`: replace
`cached_positions` with the result of `fetch_open_positions`; when it is
empty, clear `position_trailing_stop` and `position_max_profit` and mark
`last_had_positions := false`, otherwise mark it true. -/
def track_refresh_step (cfg : Config) (s : PTState)
    (fetched : Except Unit (List Position)) : PTState :=
  let cached := fetch_open_positions cfg fetched
  if cached.isEmpty then
    { s with
      cached_positions := [],
      last_had_positions := false,
      position_trailing_stop := fun _ => none,
      position_max_profit := fun _ => none }
  else
    { s with cached_positions := cached, last_had_positions := true }

/-- A signal record as read from the signal store
(src/240425/signal_processor.py): `text` is `last_signal.text` (with the
`.get("text", "")` default already applied), `price` is
`last_signal.price` (`pynone` when absent), the zone bounds are the raw
`supply_zone.min` / `demand_zone.max` entries (`none` when the key or the
zone dict is absent), `valid_position` is `none` when absent or JSON
null.  `timestamp` is carried to express that unrelated fields do not
influence deduplication. -/
structure Signal where
  text : List Char
  price : PyVal
  supply_zone_min : Option PyVal
  demand_zone_max : Option PyVal
  valid_position : Option Bool
  timestamp : List Char
deriving DecidableEq

/-- The empty Python string (falsy, `float("")` raises). -/
def emptyStr : PyVal := PyVal.str [] none

/-- `SignalProcessor.signals_are_different`
(src/240425/signal_processor.py lines 77-88): compare the
stripped-lowered text and the raw `supply_zone.min` / `demand_zone.max`
values, defaulting every field to `""` when absent or when there is no
previous signal. -/
def signals_are_different (nsig : Signal) (osig : Option Signal) : Bool :=
  let new_text := pyLower (pyStrip nsig.text)
  let new_supply := nsig.supply_zone_min.getD emptyStr
  let new_demand := nsig.demand_zone_max.getD emptyStr
  let old_text := match osig with | none => [] | some o => pyLower (pyStrip o.text)
  let old_supply := match osig with | none => emptyStr | some o => o.supply_zone_min.getD emptyStr
  let old_demand := match osig with | none => emptyStr | some o => o.demand_zone_max.getD emptyStr
  decide (new_text ≠ old_text) || decide (new_supply ≠ old_supply) ||
    decide (new_demand ≠ old_demand)

/-- Outcome of one `process_signal` call: it either raises an uncaught
`ValueError` (from a bare `float(...)` on an unparseable value), returns
`None` early (tagged with which return it was), or completes a
placement. -/
inductive ProcOutcome where
  | raisedValueError : ProcOutcome
  | retNone (reason : String) : ProcOutcome
  | placed : ProcOutcome
deriving DecidableEq

/-- The evaluation of
`float(raw) if raw else None` used for both arguments of
`set_zone_limits`: `none` means the conversion raised. -/
def zoneArg (v : PyVal) : Option (Option ℚ) :=
  if v.truthy then v.toFloat.map some else some none

/-- Step 1 of `process_signal` combined with
`ProfitTrailing.set_zone_limits` (src/240425/profit_trailing.py lines
38-50): `target_long := supply_max`, `target_short := demand_max`.  When
either `float()` conversion in the call's arguments raises, the
exception is caught and logged and the targets stay unchanged. -/
def set_zone_limits_step (st : PTState) (raw_supply_min raw_demand_max : PyVal) :
    PTState :=
  match zoneArg raw_supply_min, zoneArg raw_demand_max with
  | some l, some sh => { st with target_long := l, target_short := sh }
  | _, _ => st

/-- Step 5 of `process_signal`: the close-opposite-positions loop.  A
`float()` failure on a position aborts the loop (the surrounding
`except` catches it), keeping the closes already submitted. -/
def closeOppositeLoop (cfg : Config) (text : List Char) :
    List Position → List OrderReq
  | [] => []
  | p :: rest =>
    match (p.sizeVal.orElse (PyVal.num 0)).toFloat with
    | none => []
    | some size =>
      if containsSub text "buy".data && decide (size < 0) then
        place_market_order_forced cfg "buy" |size| :: closeOppositeLoop cfg text rest
      else if (containsSub text "sell".data || containsSub text "short".data) &&
          decide (size > 0) then
        place_market_order_forced cfg "sell" size :: closeOppositeLoop cfg text rest
      else
        closeOppositeLoop cfg text rest

/-- Steps 8-10 of `process_signal` for a resolved side: duplicate-position
guard, entry/SL computation (where `float(...)` on a truthy unparseable
zone bound raises uncaught), limit placement and bracket attachment.
`placeOk` / `attachOk` say whether the two exchange calls succeed. -/
def process_signal_place (cfg : Config) (pt2 : Option PTState) (side : String)
    (raw_supply_min raw_demand_max : PyVal) (raw_price : ℚ)
    (closes : List OrderReq) (hasOpenPos placeOk attachOk : Bool) :
    Option PTState × List OrderReq × ProcOutcome :=
  if hasOpenPos then
    (pt2, closes, .retNone "already_in_position")
  else
    let entry_sl : Except Unit (ℚ × ℚ) :=
      if side = "buy" then
        let e := raw_price * (1 - cfg.ORDER_ENTRY_OFFSET_PERCENT / 100)
        if raw_demand_max.truthy then
          match raw_demand_max.toFloat with
          | none => .error ()
          | some q => .ok (e, q)
        else
          .ok (e, raw_price * (1 - cfg.ORDER_SL_OFFSET_PERCENT / 100))
      else
        let e := raw_price * (1 + cfg.ORDER_ENTRY_OFFSET_PERCENT / 100)
        if raw_supply_min.truthy then
          match raw_supply_min.toFloat with
          | none => .error ()
          | some q => .ok (e, q)
        else
          .ok (e, raw_price * (1 + cfg.ORDER_SL_OFFSET_PERCENT / 100))
    match entry_sl with
    | .error _ => (pt2, closes, .raisedValueError)
    | .ok es =>
      if placeOk then
        let lim := place_limit_order cfg side cfg.QUANTITY es.1
        if attachOk then
          (pt2, closes ++ [lim], .placed)
        else
          (pt2, closes ++ [lim], .retNone "bracket_failed")
      else
        (pt2, closes, .retNone "limit_failed")

/-- Steps 4-10 of `process_signal`, after the execution price has been
resolved to `raw_price`: validity gate, close-opposite loop, side
classification, hygiene/guard and placement. -/
def process_signal_after_price (cfg : Config) (pt2 : Option PTState)
    (text : List Char) (raw_supply_min raw_demand_max : PyVal)
    (valid_pos : Option Bool) (raw_price : ℚ)
    (positionsRes : Except Unit (List Position))
    (hasOpenPos placeOk attachOk : Bool) :
    Option PTState × List OrderReq × ProcOutcome :=
  if decide (valid_pos ≠ some true) &&
      (containsSub text "buy".data || containsSub text "short".data ||
        containsSub text "long".data) then
    (pt2, [], .retNone "invalid_position")
  else
    let closes :=
      match positionsRes with
      | .error _ => []
      | .ok ps => closeOppositeLoop cfg text ps
    if containsSub text "buy".data || containsSub text "long".data then
      process_signal_place cfg pt2 "buy" raw_supply_min raw_demand_max raw_price
        closes hasOpenPos placeOk attachOk
    else if containsSub text "sell".data || containsSub text "short".data then
      process_signal_place cfg pt2 "sell" raw_supply_min raw_demand_max raw_price
        closes hasOpenPos placeOk attachOk
    else
      (pt2, closes, .retNone "unknown_side")

/-- `SignalProcessor.process_signal` (src/240425/signal_processor.py
lines 90-221).  Inputs beyond the signal: the shared `ProfitTrailing`
state (`none` when the processor was built without one), the live price,
the result of the exchange position fetch of step 5, the
`has_open_position` answer of step 8, and the success of the limit
placement / bracket attachment calls.  Returns the updated
`ProfitTrailing` state, the list of orders submitted to the exchange
(market closes and the limit order; cancellations are not orders), and
the outcome. -/
def process_signal (cfg : Config) (pt : Option PTState) (sig : Signal)
    (live : Option ℚ) (positionsRes : Except Unit (List Position))
    (hasOpenPos placeOk attachOk : Bool) :
    Option PTState × List OrderReq × ProcOutcome :=
  let text := pyLower sig.text
  let raw_supply_min := sig.supply_zone_min.getD PyVal.pynone
  let raw_demand_max := sig.demand_zone_max.getD PyVal.pynone
  let pt1 := pt.map (fun st => set_zone_limits_step st raw_supply_min raw_demand_max)
  if containsSub text "take profit".data || containsSub text "tp".data then
    (pt1.map (fun st => { st with take_profit_detected := true }), [],
      .retNone "take_profit")
  else
    let pt2 := pt1.map (fun st => { st with take_profit_detected := false })
    if sig.price.truthy then
      match sig.price.toFloat with
      | none => (pt2, [], .raisedValueError)
      | some rp =>
        process_signal_after_price cfg pt2 text raw_supply_min raw_demand_max
          sig.valid_position rp positionsRes hasOpenPos placeOk attachOk
    else
      match live with
      | none => (pt2, [], .retNone "no_price")
      | some l =>
        process_signal_after_price cfg pt2 text raw_supply_min raw_demand_max
          sig.valid_position l positionsRes hasOpenPos placeOk attachOk

/-- One iteration of `SignalProcessor.process_signals_loop`
(src/240425/signal_processor.py lines 223-231): fetch a signal; when one
is present and `signals_are_different` from `last_signal`, run
`process_signal` (there is no `try/except` around the call, so a raised
exception propagates and the loop dies; `last_signal` is then never
updated).  Returns the profit-trailing state, the new `last_signal`, the
orders submitted, and the processing outcome (`none` when the signal was
absent or unchanged). -/
def process_signals_iteration (cfg : Config) (pt : Option PTState)
    (last_signal : Option Signal) (fetched : Option Signal) (live : Option ℚ)
    (positionsRes : Except Unit (List Position))
    (hasOpenPos placeOk attachOk : Bool) :
    Option PTState × Option Signal × List OrderReq × Option ProcOutcome :=
  match fetched with
  | none => (pt, last_signal, [], none)
  | some sig =>
    if signals_are_different sig last_signal then
      let res := process_signal cfg pt sig live positionsRes hasOpenPos placeOk attachOk
      match res.2.2 with
      | .raisedValueError => (res.1, last_signal, res.2.1, some .raisedValueError)
      | o => (res.1, some sig, res.2.1, some o)
    else
      (pt, last_signal, [], none)

/-- `LEVEL_PCTS` from src/220425/exit_levels.py. -/
def LEVEL_PCTS (level : ℤ) : ℚ :=
  if level = 1 then 1 / 2
  else if level = 2 then 1 / 4
  else if level = 3 then 1 / 4
  else 0

/-- `compute_exit_amount` (src/220425/exit_levels.py lines 12-30):
`max(0, min(floor(original_size * pct), original_size - exited_so_far))`. -/
def compute_exit_amount (original_size exited_so_far : ℚ) (level : ℤ) : ℚ :=
  let pct := LEVEL_PCTS level
  let target_qty := original_size * pct
  let qty : ℚ := (⌊target_qty⌋ : ℤ)
  let remaining := original_size - exited_so_far
  max 0 (min qty remaining)

/-- The rule table exactly as the specification words it (§4.1, priority
order, first match wins), for comparison with the implementation:
breakeven on a detected take-profit; lock 90% of the peak profit once
the relevant zone target is hit; otherwise the fixed-offset stop
`entry ∓ entry × fixed_offset_percent/100`.  Stated as a function of the
observables the spec names. -/
def specRuleChoice (take_profit_detected is_long : Bool)
    (target_long target_short : Option ℚ)
    (live_price entry max_profit_abs fixed_offset_percent : ℚ) : ℚ × String :=
  if take_profit_detected then
    (entry, "breakeven")
  else if is_long &&
      (match target_long with | some t => decide (live_price ≥ t) | none => false) then
    (entry + (9 / 10) * max_profit_abs, "lock_90")
  else if !is_long &&
      (match target_short with | some t => decide (live_price ≤ t) | none => false) then
    (entry - (9 / 10) * max_profit_abs, "lock_90")
  else if is_long then
    (entry - entry * fixed_offset_percent / 100, "fixed_stop")
  else
    (entry + entry * fixed_offset_percent / 100, "fixed_stop")

/-- Step 3 of `process_signal` as a partial value: the execution price it
resolves, `none` when it either raises (truthy unparseable price) or
returns early (falsy price and no live price). -/
def resolvedPrice (sig : Signal) (live : Option ℚ) : Option ℚ :=
  if sig.price.truthy then sig.price.toFloat else live

/-- A sequence of `update_trailing_stop` calls (one per tick, arbitrary
positions and live prices), threading the state. -/
def applyUpdates (cfg : Config) : PTState → List (Position × ℚ) → PTState
  | s, [] => s
  | s, (p, live) :: rest => applyUpdates cfg (update_trailing_stop cfg s p live).1 rest

/-- A concrete configuration used by the evaluation witnesses. -/
def sampleCfg : Config :=
  { SYMBOL := "BTCUSD".data, FIXED_STOP_OFFSET_PERCENT := 2,
    ORDER_ENTRY_OFFSET_PERCENT := 1, ORDER_SL_OFFSET_PERCENT := 3, QUANTITY := 1 }

/-- A concrete fresh `ProfitTrailing` state (empty maps, no flags). -/
def sampleState : PTState :=
  { position_trailing_stop := fun _ => none, position_max_profit := fun _ => none,
    take_profit_detected := false, target_long := none, target_short := none,
    cached_positions := [], last_had_positions := true }

/-- A concrete long position: entry 100 (in `info.entry_price`), size 1. -/
def samplePosLong : Position :=
  { info_product_symbol := PyVal.str "BTCUSD".data none, symbol := none,
    info_entry_price := PyVal.num 100, entryPrice := PyVal.pynone,
    size := PyVal.num 1, contracts := PyVal.pynone }

/-- A directional buy signal whose `valid_position` field is absent
(JSON null or missing), with a numeric embedded price. -/
def sigBuyNoValidity : Signal :=
  { text := "buy".data, price := PyVal.num 100, supply_zone_min := none,
    demand_zone_max := none, valid_position := none, timestamp := "t1".data }

/-- A directional buy signal whose embedded price is the non-empty
unparseable string `"abc"`. -/
def sigBadPrice : Signal :=
  { text := "buy".data, price := PyVal.str "abc".data none,
    supply_zone_min := none, demand_zone_max := none,
    valid_position := some true, timestamp := "t2".data }

/-- A take-profit signal with parseable zone bounds. -/
def sigTakeProfit : Signal :=
  { text := "take profit hit".data, price := PyVal.pynone,
    supply_zone_min := some (PyVal.str "105".data (some 105)),
    demand_zone_max := some (PyVal.str "95".data (some 95)),
    valid_position := none, timestamp := "t3".data }

/-- `sampleState` with trailing state recorded for `samplePosLong` and
the position cached, as after a few ticks with an open position. -/
def sampleStateTracking : PTState :=
  { sampleState with
    position_trailing_stop := mapSet (fun _ => none) samplePosLong.key 98,
    position_max_profit := mapSet (fun _ => none) samplePosLong.key 5,
    cached_positions := [samplePosLong] }

/-- Reading a key just written returns the written value. -/
lemma mapSet_self (m : PyVal × PyVal × PyVal → Option ℚ) (k : PyVal × PyVal × PyVal)
    (v : ℚ) : mapSet m k v k = some v := by
  simp [mapSet]

/-- When both `float` conversions succeed, `update_trailing_stop` runs its
body `update_core`. -/
lemma update_trailing_stop_parsed {p : Position} {entry size : ℚ}
    (cfg : Config) (s : PTState) (live_price : ℚ)
    (hentry : p.entryVal.toFloat = some entry)
    (hsize : (p.sizeVal.orElse (PyVal.num 0)).toFloat = some size) :
    update_trailing_stop cfg s p live_price = update_core cfg s p live_price entry size := by
  simp [update_trailing_stop, hentry, hsize]

/-- C1: Rule selection in `update_trailing_stop` is deterministic and total:
for every open position (parseable entry, nonzero parseable size) and live
price, the stored `max_profit_abs` is updated to
`max(previous, current_profit)` and the returned stop and rule are exactly
those of the spec's fixed priority order (`specRuleChoice`): breakeven at
the entry when `take_profit_detected`; else lock_90 at
`entry ± 0.9 × max_profit_abs` when the relevant zone target is hit; else
fixed_stop at `entry ∓ entry × fixed_offset_percent/100`. -/
theorem rule_selection_matches_spec (cfg : Config) (s : PTState) (p : Position)
    (live_price entry size : ℚ)
    (hentry : p.entryVal.toFloat = some entry)
    (hsize : (p.sizeVal.orElse (PyVal.num 0)).toFloat = some size)
    (hopen : size ≠ 0) :
    (update_trailing_stop cfg s p live_price).1.position_max_profit p.key =
        some (max ((s.position_max_profit p.key).getD 0)
          (if size > 0 then live_price - entry else entry - live_price)) ∧
    (update_trailing_stop cfg s p live_price).2.1 =
        some (specRuleChoice s.take_profit_detected (decide (size > 0))
          s.target_long s.target_short live_price entry
          (max ((s.position_max_profit p.key).getD 0)
            (if size > 0 then live_price - entry else entry - live_price))
          cfg.FIXED_STOP_OFFSET_PERCENT).1 ∧
    (update_trailing_stop cfg s p live_price).2.2.2 =
        some (specRuleChoice s.take_profit_detected (decide (size > 0))
          s.target_long s.target_short live_price entry
          (max ((s.position_max_profit p.key).getD 0)
            (if size > 0 then live_price - entry else entry - live_price))
          cfg.FIXED_STOP_OFFSET_PERCENT).2 := by
  rw [update_trailing_stop_parsed cfg s live_price hentry hsize]
  rcases lt_trichotomy size 0 with hneg | hz | hpos
  · have hd1 : decide (size > 0) = false := decide_eq_false (by linarith)
    have hd2 : decide (size < 0) = true := decide_eq_true hneg
    have hsz : ¬ (size > 0) := by linarith
    refine ⟨by simp [update_core, mapSet_self], ?_, ?_⟩ <;>
    · simp only [update_core, specRuleChoice, fixed_stop, hitLong, hitShort, hd1, hd2,
        Bool.false_and, Bool.true_and, Bool.false_eq_true, if_false, Bool.not_false,
        if_neg hsz]
      cases htp : s.take_profit_detected <;>
        cases hts : s.target_short <;>
          simp only [Bool.false_eq_true, if_false, if_true, ite_true, ite_false] <;>
        first
          | (split_ifs <;> simp only [Option.some.injEq] <;> ring)
          | (simp only [Option.some.injEq]; ring)
  · exact absurd hz hopen
  · have hd1 : decide (size > 0) = true := decide_eq_true hpos
    have hd2 : decide (size < 0) = false := decide_eq_false (by linarith)
    have hsz : size > 0 := hpos
    refine ⟨by simp [update_core, mapSet_self], ?_, ?_⟩ <;>
    · simp only [update_core, specRuleChoice, fixed_stop, hitLong, hitShort, hd1, hd2,
        Bool.false_and, Bool.true_and, Bool.true_eq_false, Bool.not_true, if_false,
        if_pos hsz]
      cases htp : s.take_profit_detected <;>
        cases htl : s.target_long <;>
          simp only [Bool.false_eq_true, if_false, if_true, ite_true, ite_false] <;>
        first
          | (split_ifs <;> simp only [Option.some.injEq] <;> ring)
          | (simp only [Option.some.injEq]; ring)

/-- Overwriting the same key twice keeps only the last write. -/
lemma mapSet_mapSet (m : PyVal × PyVal × PyVal → Option ℚ) (k : PyVal × PyVal × PyVal)
    (a b : ℚ) : mapSet (mapSet m k a) k b = mapSet m k b := by
  funext k'
  by_cases h : k' = k <;> simp [mapSet, h]

/-- C10: `update_trailing_stop` is idempotent within a tick: a second call
with the same position, live price and shared flags returns the same
`(trailing_stop, profit_pct, rule)` triple and leaves
`position_max_profit` and `position_trailing_stop` (and the whole state)
exactly as the first call did — so the re-evaluation inside `book_profit`
never changes the stop computed earlier in the same tick. -/
theorem update_trailing_stop_idempotent (cfg : Config) (s : PTState) (p : Position)
    (live_price : ℚ) :
    update_trailing_stop cfg (update_trailing_stop cfg s p live_price).1 p live_price =
      update_trailing_stop cfg s p live_price := by
  cases hE : p.entryVal.toFloat with
  | none =>
    simp [update_trailing_stop, hE]
  | some entry =>
    cases hS : (p.sizeVal.orElse (PyVal.num 0)).toFloat with
    | none =>
      cases hE' : p.entryVal.toFloat <;> simp [update_trailing_stop, hE, hS]
    | some size =>
      rw [update_trailing_stop_parsed cfg s live_price hE hS]
      rw [update_trailing_stop_parsed cfg _ live_price hE hS]
      simp only [update_core, mapSet_self, Option.getD_some, mapSet_mapSet]
      rw [max_assoc, max_self]

/-- One `update_trailing_stop` call never decreases a stored
`position_max_profit` value and never removes a key. -/
lemma update_max_profit_mono (cfg : Config) (s : PTState) (p : Position)
    (live_price : ℚ) (k : PyVal × PyVal × PyVal) (v : ℚ)
    (h : s.position_max_profit k = some v) :
    ∃ v', (update_trailing_stop cfg s p live_price).1.position_max_profit k = some v' ∧
      v ≤ v' := by
  cases hE : p.entryVal.toFloat with
  | none => exact ⟨v, by simp [update_trailing_stop, hE, h], le_refl v⟩
  | some entry =>
    cases hS : (p.sizeVal.orElse (PyVal.num 0)).toFloat with
    | none =>
      exact ⟨v, by cases hE' : p.entryVal.toFloat <;> simp_all [update_trailing_stop], le_refl v⟩
    | some size =>
      rw [update_trailing_stop_parsed cfg s live_price hE hS]
      by_cases hk : k = p.key
      · subst hk
        refine ⟨max v (if 0 < size then live_price - entry else entry - live_price),
          ?_, le_max_left _ _⟩
        simp [update_core, mapSet_self, h]
      · exact ⟨v, by simp [update_core, mapSet, hk, h], le_refl v⟩

/-- C4: For every position key present in `position_max_profit`, the stored
`max_profit_abs` value is monotonically non-decreasing across any sequence
of successive `update_trailing_stop` calls (arbitrary positions and live
prices), and the key stays present. -/
theorem max_profit_monotone (cfg : Config) (s : PTState)
    (upds : List (Position × ℚ)) (k : PyVal × PyVal × PyVal) (v : ℚ)
    (h : s.position_max_profit k = some v) :
    ∃ v', (applyUpdates cfg s upds).position_max_profit k = some v' ∧ v ≤ v' := by
  induction upds generalizing s v with
  | nil => exact ⟨v, h, le_refl v⟩
  | cons u rest ih =>
    obtain ⟨v1, hv1, hle1⟩ := update_max_profit_mono cfg s u.1 u.2 k v h
    obtain ⟨v2, hv2, hle2⟩ := ih _ _ hv1
    exact ⟨v2, by simpa [applyUpdates] using hv2, le_trans hle1 hle2⟩

/-- C2: `book_profit` submits a close order if and only if the live price
has crossed the currently computed stop in the adverse direction (long:
`live_price < stop`; short: `live_price > stop`); the close is a market
order for the full absolute position size on the opposite side, with
`time_in_force = ioc` and `reduce_only` set; with no crossing, no order is
submitted and `book_profit` returns false. -/
theorem book_profit_close_iff (cfg : Config) (s : PTState) (p : Position)
    (live_price entry size stop : ℚ)
    (hentry : p.entryVal.toFloat = some entry)
    (hsize : (p.sizeVal.orElse (PyVal.num 0)).toFloat = some size)
    (hopen : size ≠ 0)
    (hstop : (update_trailing_stop cfg s p live_price).2.1 = some stop) :
    ((if size > 0 then live_price < stop else live_price > stop) →
      (book_profit cfg s p live_price).2.1 = true ∧
      ∃ o, (book_profit cfg s p live_price).2.2 = some o ∧
        o.otype = "market" ∧ o.amount = |size| ∧
        o.side = (if size > 0 then "sell" else "buy") ∧
        o.time_in_force = some "ioc" ∧ o.reduce_only = true ∧
        o.symbol = cfg.SYMBOL) ∧
    (¬ (if size > 0 then live_price < stop else live_price > stop) →
      (book_profit cfg s p live_price).2.1 = false ∧
      (book_profit cfg s p live_price).2.2 = none) := by
  constructor
  · intro hcross
    simp only [book_profit, hsize, hstop]
    rw [if_pos hcross]
    exact ⟨rfl, _, rfl, rfl, rfl, rfl, rfl, rfl, rfl⟩
  · intro hcross
    simp only [book_profit, hsize, hstop]
    rw [if_neg hcross]
    exact ⟨rfl, rfl⟩

/-- C3 (amended): when the periodic position re-fetch raises,
`fetch_open_positions` returns the empty list and the refresh step of
`track` behaves exactly like a successful fetch reporting no open
positions: the cached snapshot becomes empty and all per-position trailing
state (`position_trailing_stop`, `position_max_profit`) is cleared. -/
theorem fetch_failure_behaves_like_empty (cfg : Config) (s : PTState) :
    track_refresh_step cfg s (Except.error ()) = track_refresh_step cfg s (Except.ok []) ∧
    (track_refresh_step cfg s (Except.error ())).position_max_profit = (fun _ => none) ∧
    (track_refresh_step cfg s (Except.error ())).position_trailing_stop = (fun _ => none) ∧
    (track_refresh_step cfg s (Except.error ())).cached_positions = [] := by
  refine ⟨rfl, ?_, ?_, ?_⟩ <;> rfl

/-- C3 (counterexample): starting from a state with cached positions and
recorded trailing state, a failing fetch (`Except.error`) does NOT keep
the previous snapshot: the snapshot becomes empty and the trailing-state
entries are cleared, contradicting the claim. -/
theorem fetch_failure_counterexample :
    sampleStateTracking.position_max_profit samplePosLong.key = some 5 ∧
    sampleStateTracking.cached_positions = [samplePosLong] ∧
    (track_refresh_step sampleCfg sampleStateTracking (Except.error ())).position_max_profit
        samplePosLong.key = none ∧
    (track_refresh_step sampleCfg sampleStateTracking (Except.error ())).position_trailing_stop
        samplePosLong.key = none ∧
    (track_refresh_step sampleCfg sampleStateTracking (Except.error ())).cached_positions = [] := by
  refine ⟨by decide, rfl, by decide, by decide, rfl⟩

/-- C5: `signals_are_different` reports no difference exactly when the
stripped-lowered signal text, the raw supply-zone min and the raw
demand-zone max (each defaulting to the empty string when absent) are
unchanged — so churn in any other field, e.g. `timestamp`, never triggers
reprocessing. -/
theorem signals_unchanged_iff (n o : Signal) :
    signals_are_different n (some o) = false ↔
      (pyLower (pyStrip n.text) = pyLower (pyStrip o.text) ∧
       n.supply_zone_min.getD emptyStr = o.supply_zone_min.getD emptyStr ∧
       n.demand_zone_max.getD emptyStr = o.demand_zone_max.getD emptyStr) := by
  simp [signals_are_different, and_assoc]

/-- C9 (counterexample): with `exited_so_far > original_size` the clamp at
zero makes `compute_exit_amount` return 0, which exceeds
`original_size − exited_so_far = −1`, contradicting the claim's unbounded
"never exceeds" clause. -/
theorem exit_amount_exceeds_remaining_counterexample :
    compute_exit_amount 10 11 1 = 0 ∧ ¬ (compute_exit_amount 10 11 1 ≤ 10 - 11) := by
  constructor
  · norm_num [compute_exit_amount, LEVEL_PCTS]
  · norm_num [compute_exit_amount, LEVEL_PCTS]

/-- C9 (amended): for `original_size = 10`, level 1 exits 5 and levels 2
and 3 exit 2 whenever at least that much remains unexited; the returned
amount never exceeds `original_size − exited_so_far` provided
`exited_so_far ≤ original_size`; and any level other than 1, 2, 3 exits
0. -/
theorem exit_amount_levels (original_size exited_so_far : ℚ) (level : ℤ) :
    (exited_so_far ≤ 5 → compute_exit_amount 10 exited_so_far 1 = 5) ∧
    (exited_so_far ≤ 8 → compute_exit_amount 10 exited_so_far 2 = 2) ∧
    (exited_so_far ≤ 8 → compute_exit_amount 10 exited_so_far 3 = 2) ∧
    (exited_so_far ≤ original_size →
      compute_exit_amount original_size exited_so_far level ≤ original_size - exited_so_far) ∧
    (level ≠ 1 ∧ level ≠ 2 ∧ level ≠ 3 →
      compute_exit_amount original_size exited_so_far level = 0) := by
  refine ⟨?_, ?_, ?_, ?_, ?_⟩
  · intro h
    have h5 : ⌊(10 : ℚ) * (1 / 2)⌋ = 5 := by norm_num
    simp only [compute_exit_amount, LEVEL_PCTS, if_pos rfl, h5]
    have : (5 : ℚ) ≤ 10 - exited_so_far := by linarith
    rw [min_eq_left (by push_cast; linarith)]
    · norm_num
  · intro h
    have h2 : ⌊(10 : ℚ) * (1 / 4)⌋ = 2 := by norm_num
    simp only [compute_exit_amount, LEVEL_PCTS]
    norm_num [h2]
    rw [min_eq_left (by push_cast; linarith)]
    norm_num
  · intro h
    have h2 : ⌊(10 : ℚ) * (1 / 4)⌋ = 2 := by norm_num
    simp only [compute_exit_amount, LEVEL_PCTS]
    norm_num [h2]
    rw [min_eq_left (by push_cast; linarith)]
    norm_num
  · intro h
    simp only [compute_exit_amount]
    exact max_le (by linarith) (min_le_right _ _)
  · rintro ⟨h1, h2, h3⟩
    simp only [compute_exit_amount, LEVEL_PCTS, if_neg h1, if_neg h2, if_neg h3]
    norm_num

/-- Steps 8-10 of `process_signal` never modify the shared
`ProfitTrailing` state. -/
lemma process_signal_place_fst {cfg : Config} {pt2 : Option PTState} {side : String}
    {rs rd : PyVal} {rp : ℚ} {closes : List OrderReq} {hop pOk aOk : Bool} :
    (process_signal_place cfg pt2 side rs rd rp closes hop pOk aOk).1 = pt2 := by
  unfold process_signal_place
  repeat first | rfl | split

/-- Steps 4-10 of `process_signal` never modify the shared
`ProfitTrailing` state. -/
lemma process_signal_after_price_fst {cfg : Config} {pt2 : Option PTState}
    {text : List Char} {rs rd : PyVal} {vp : Option Bool} {rp : ℚ}
    {posRes : Except Unit (List Position)} {hop pOk aOk : Bool} :
    (process_signal_after_price cfg pt2 text rs rd vp rp posRes hop pOk aOk).1 = pt2 := by
  unfold process_signal_after_price
  repeat first | rfl | exact process_signal_place_fst | split

/-- No outcome produced after the validity gate is the gate's own
`invalid_position` skip. -/
lemma process_signal_place_ne_invalid {cfg : Config} {pt2 : Option PTState} {side : String}
    {rs rd : PyVal} {rp : ℚ} {closes : List OrderReq} {hop pOk aOk : Bool} :
    (process_signal_place cfg pt2 side rs rd rp closes hop pOk aOk).2.2 ≠
      ProcOutcome.retNone "invalid_position" := by
  unfold process_signal_place
  repeat first | simp | split

/-- After the execution price is resolved, `process_signal` skips with
`invalid_position` exactly when `valid_position` is not `true` while the
text contains buy/short/long. -/
lemma process_signal_after_price_invalid_iff {cfg : Config} {pt2 : Option PTState}
    {text : List Char} {rs rd : PyVal} {vp : Option Bool} {rp : ℚ}
    {posRes : Except Unit (List Position)} {hop pOk aOk : Bool} :
    ((process_signal_after_price cfg pt2 text rs rd vp rp posRes hop pOk aOk).2.2 =
        ProcOutcome.retNone "invalid_position") ↔
      (vp ≠ some true ∧
        (containsSub text "buy".data || containsSub text "short".data ||
          containsSub text "long".data) = true) := by
  unfold process_signal_after_price
  by_cases hg : (decide (vp ≠ some true) &&
      (containsSub text "buy".data || containsSub text "short".data ||
        containsSub text "long".data)) = true
  · rw [if_pos hg]
    simp only [Bool.and_eq_true, decide_eq_true_eq] at hg
    simp [hg]
  · rw [if_neg hg]
    constructor
    · intro h
      exfalso
      revert h
      repeat
        first
          | exact fun h => process_signal_place_ne_invalid h
          | split
          | (intro h; simp at h)
    · intro hrhs
      exact absurd (by simp only [Bool.and_eq_true, decide_eq_true_eq]; exact hrhs) hg

/-- C6: for every signal (whose zone bounds are absent, falsy or
parseable, the cases the claim enumerates), `process_signal` updates the
shared zone targets from the signal's zone data before any skip decision
or early return: the final shared state carries `target_long` from the
supply-zone min and `target_short` from the demand-zone max (parsed, or
unset when absent), with `take_profit_detected` set exactly when the text
classifies as take-profit; a take-profit signal returns with no orders
submitted and no position closed. -/
theorem zone_targets_before_skip (cfg : Config) (st : PTState) (sig : Signal)
    (live : Option ℚ) (posRes : Except Unit (List Position)) (hop pOk aOk : Bool)
    (l sh : Option ℚ)
    (hsup : zoneArg (sig.supply_zone_min.getD PyVal.pynone) = some l)
    (hdem : zoneArg (sig.demand_zone_max.getD PyVal.pynone) = some sh) :
    (process_signal cfg (some st) sig live posRes hop pOk aOk).1 =
      some { st with
               target_long := l
               target_short := sh
               take_profit_detected :=
                 (containsSub (pyLower sig.text) "take profit".data ||
                  containsSub (pyLower sig.text) "tp".data) } ∧
    ((containsSub (pyLower sig.text) "take profit".data ||
      containsSub (pyLower sig.text) "tp".data) = true →
      (process_signal cfg (some st) sig live posRes hop pOk aOk).2.1 = [] ∧
      (process_signal cfg (some st) sig live posRes hop pOk aOk).2.2 =
        ProcOutcome.retNone "take_profit") := by
  have hz : set_zone_limits_step st (sig.supply_zone_min.getD PyVal.pynone)
      (sig.demand_zone_max.getD PyVal.pynone) =
      { st with target_long := l, target_short := sh } := by
    simp [set_zone_limits_step, hsup, hdem]
  cases htp : (containsSub (pyLower sig.text) "take profit".data ||
      containsSub (pyLower sig.text) "tp".data) with
  | true =>
    refine ⟨?_, fun _ => ⟨?_, ?_⟩⟩ <;>
      simp [process_signal, htp, hz]
  | false =>
    refine ⟨?_, by simp⟩
    simp only [process_signal, htp, Bool.false_eq_true, if_false, Option.map_some, hz]
    cases hT : sig.price.truthy
    · cases live <;> simp [hT, process_signal_after_price_fst, hz]
    · cases hF : sig.price.toFloat <;> simp [hT, hF, process_signal_after_price_fst, hz]

/-- C7 (amended): for a non-take-profit signal whose execution price
resolves, the validity gate of `process_signal` skips placing a new order
exactly when `valid_position` is anything other than exactly `true`
(explicitly false, null, or absent) while the text contains
buy/short/long. -/
theorem validity_gate_iff (cfg : Config) (pt : Option PTState) (sig : Signal)
    (live : Option ℚ) (posRes : Except Unit (List Position)) (hop pOk aOk : Bool)
    (rp : ℚ)
    (htp : (containsSub (pyLower sig.text) "take profit".data ||
            containsSub (pyLower sig.text) "tp".data) = false)
    (hpr : resolvedPrice sig live = some rp) :
    ((process_signal cfg pt sig live posRes hop pOk aOk).2.2 =
        ProcOutcome.retNone "invalid_position") ↔
      (sig.valid_position ≠ some true ∧
        (containsSub (pyLower sig.text) "buy".data ||
         containsSub (pyLower sig.text) "short".data ||
         containsSub (pyLower sig.text) "long".data) = true) := by
  simp only [process_signal, htp, Bool.false_eq_true, if_false]
  cases hT : sig.price.truthy
  · have hlive : live = some rp := by simpa [resolvedPrice, hT] using hpr
    subst hlive
    simpa [hT] using process_signal_after_price_invalid_iff
  · have hfl : sig.price.toFloat = some rp := by simpa [resolvedPrice, hT] using hpr
    simpa [hT, hfl] using process_signal_after_price_invalid_iff

/-- C7 (counterexample): a directional buy signal whose `valid_position`
field is absent is skipped by the validity gate (outcome
`invalid_position`, no orders), contradicting the claim that such a
signal proceeds toward order placement. -/
theorem validity_gate_counterexample :
    sigBuyNoValidity.valid_position = none ∧
    containsSub (pyLower sigBuyNoValidity.text) "buy".data = true ∧
    (process_signal sampleCfg (some sampleState) sigBuyNoValidity (some 100)
        (Except.ok []) false true true).2.2 = ProcOutcome.retNone "invalid_position" ∧
    (process_signal sampleCfg (some sampleState) sigBuyNoValidity (some 100)
        (Except.ok []) false true true).2.1 = [] := by
  refine ⟨rfl, by decide, ?_, ?_⟩ <;> rfl

/-- C8: a fetched signal whose embedded price is the non-empty
unparseable string "abc" makes `process_signal` raise an uncaught
`ValueError` from `float(raw_price)`, and the exception propagates
through `process_signals_loop`'s iteration (which has no `try/except`
around the call), killing the loop — the signal is not skipped and later
cycles do not proceed. -/
theorem unparseable_price_raises :
    sigBadPrice.price = PyVal.str "abc".data none ∧
    (process_signal sampleCfg (some sampleState) sigBadPrice (some 100)
        (Except.ok []) false true true).2.2 = ProcOutcome.raisedValueError ∧
    (process_signals_iteration sampleCfg (some sampleState) none (some sigBadPrice)
        (some 100) (Except.ok []) false true true).2.2.2 =
      some ProcOutcome.raisedValueError := by
  refine ⟨rfl, ?_, ?_⟩ <;> rfl

/-- Witness for C1 at a concrete long position: entry 100, size 1, live
105, no targets, no take-profit flag: rule `fixed_stop`, stop 98. -/
theorem rule_selection_witness :
    samplePosLong.entryVal.toFloat = some 100 ∧
    (samplePosLong.sizeVal.orElse (PyVal.num 0)).toFloat = some 1 ∧
    (1 : ℚ) ≠ 0 ∧
    (update_trailing_stop sampleCfg sampleState samplePosLong 105).2.1 = some 98 ∧
    (update_trailing_stop sampleCfg sampleState samplePosLong 105).2.2.2 = some "fixed_stop" :=
  ⟨rfl, rfl, by norm_num,
   (rule_selection_matches_spec sampleCfg sampleState samplePosLong 105 100 1 rfl rfl
      (by norm_num)).2.1.trans (by norm_num [specRuleChoice, sampleState, sampleCfg]),
   (rule_selection_matches_spec sampleCfg sampleState samplePosLong 105 100 1 rfl rfl
      (by norm_num)).2.2.trans (by rfl)⟩

/-- Witness for C2 at a concrete long position: entry 100, stop 98, live
97 crosses, so a reduce-only ioc market sell for the full size is
submitted. -/
theorem book_profit_witness :
    samplePosLong.entryVal.toFloat = some 100 ∧
    (samplePosLong.sizeVal.orElse (PyVal.num 0)).toFloat = some 1 ∧
    (1 : ℚ) ≠ 0 ∧
    (update_trailing_stop sampleCfg sampleState samplePosLong 97).2.1 = some 98 ∧
    (book_profit sampleCfg sampleState samplePosLong 97).2.1 = true ∧
    (∃ o, (book_profit sampleCfg sampleState samplePosLong 97).2.2 = some o ∧
      o.otype = "market" ∧ o.amount = |(1 : ℚ)| ∧
      o.side = (if (1 : ℚ) > 0 then "sell" else "buy") ∧
      o.time_in_force = some "ioc" ∧ o.reduce_only = true ∧
      o.symbol = sampleCfg.SYMBOL) :=
  ⟨rfl, rfl, by norm_num, by norm_num [update_trailing_stop, update_core, sampleState,
      samplePosLong, sampleCfg, fixed_stop, hitLong, hitShort, Position.entryVal,
      Position.sizeVal, PyVal.orElse, PyVal.toFloat, PyVal.truthy, mapSet],
   ((book_profit_close_iff sampleCfg sampleState samplePosLong 97 100 1 98 rfl rfl
      (by norm_num) (by norm_num [update_trailing_stop, update_core, sampleState,
        samplePosLong, sampleCfg, fixed_stop, hitLong, hitShort, Position.entryVal,
        Position.sizeVal, PyVal.orElse, PyVal.toFloat, PyVal.truthy, mapSet])).1 (by norm_num)).1,
   ((book_profit_close_iff sampleCfg sampleState samplePosLong 97 100 1 98 rfl rfl
      (by norm_num) (by norm_num [update_trailing_stop, update_core, sampleState,
        samplePosLong, sampleCfg, fixed_stop, hitLong, hitShort, Position.entryVal,
        Position.sizeVal, PyVal.orElse, PyVal.toFloat, PyVal.truthy, mapSet])).1 (by norm_num)).2⟩

/-- Witness for C4: a stored max profit of 5 never decreases over two
further ticks at prices 104 and 90. -/
theorem max_profit_monotone_witness :
    sampleStateTracking.position_max_profit samplePosLong.key = some 5 ∧
    ∃ v', (applyUpdates sampleCfg sampleStateTracking
        [(samplePosLong, 104), (samplePosLong, 90)]).position_max_profit
          samplePosLong.key = some v' ∧ (5 : ℚ) ≤ v' :=
  ⟨by decide,
   max_profit_monotone sampleCfg sampleStateTracking
     [(samplePosLong, 104), (samplePosLong, 90)] samplePosLong.key 5 (by decide)⟩

/-- Witness for C6 at a concrete take-profit signal with zone bounds
"105"/"95": targets are primed, the flag is set, and no orders are
placed. -/
theorem zone_targets_witness :
    zoneArg (sigTakeProfit.supply_zone_min.getD PyVal.pynone) = some (some 105) ∧
    zoneArg (sigTakeProfit.demand_zone_max.getD PyVal.pynone) = some (some 95) ∧
    (process_signal sampleCfg (some sampleState) sigTakeProfit none (Except.ok [])
        false true true).2.1 = [] ∧
    (process_signal sampleCfg (some sampleState) sigTakeProfit none (Except.ok [])
        false true true).2.2 = ProcOutcome.retNone "take_profit" ∧
    (process_signal sampleCfg (some sampleState) sigTakeProfit none (Except.ok [])
        false true true).1 =
      some { sampleState with
               target_long := some 105
               target_short := some 95
               take_profit_detected := true } :=
  ⟨rfl, rfl,
   ((zone_targets_before_skip sampleCfg sampleState sigTakeProfit none (Except.ok [])
      false true true (some 105) (some 95) rfl rfl).2 (by decide)).1,
   ((zone_targets_before_skip sampleCfg sampleState sigTakeProfit none (Except.ok [])
      false true true (some 105) (some 95) rfl rfl).2 (by decide)).2,
   ((zone_targets_before_skip sampleCfg sampleState sigTakeProfit none (Except.ok [])
      false true true (some 105) (some 95) rfl rfl).1).trans (by rfl)⟩

/-- Witness for C7 (amended) at the concrete buy signal with absent
`valid_position`. -/
theorem validity_gate_iff_witness :
    (containsSub (pyLower sigBuyNoValidity.text) "take profit".data ||
      containsSub (pyLower sigBuyNoValidity.text) "tp".data) = false ∧
    resolvedPrice sigBuyNoValidity (some 100) = some 100 ∧
    (((process_signal sampleCfg (some sampleState) sigBuyNoValidity (some 100)
        (Except.ok []) false true true).2.2 = ProcOutcome.retNone "invalid_position") ↔
      (sigBuyNoValidity.valid_position ≠ some true ∧
        (containsSub (pyLower sigBuyNoValidity.text) "buy".data ||
         containsSub (pyLower sigBuyNoValidity.text) "short".data ||
         containsSub (pyLower sigBuyNoValidity.text) "long".data) = true)) :=
  ⟨by decide, rfl,
   validity_gate_iff sampleCfg (some sampleState) sigBuyNoValidity (some 100)
     (Except.ok []) false true true 100 (by decide) rfl⟩

/-- Witness for C9 (amended) at `original_size = 10`,
`exited_so_far = 3`, unknown level 7. -/
theorem exit_amount_levels_witness :
    ((3 : ℚ) ≤ 5 → compute_exit_amount 10 3 1 = 5) ∧
    ((3 : ℚ) ≤ 8 → compute_exit_amount 10 3 2 = 2) ∧
    ((3 : ℚ) ≤ 8 → compute_exit_amount 10 3 3 = 2) ∧
    ((3 : ℚ) ≤ 10 → compute_exit_amount 10 3 7 ≤ 10 - 3) ∧
    ((7 : ℤ) ≠ 1 ∧ (7 : ℤ) ≠ 2 ∧ (7 : ℤ) ≠ 3 → compute_exit_amount 10 3 7 = 0) :=
  exit_amount_levels 10 3 7
